import Mathlib

/-!
Shallow embedding of `src/Source/SceneManager.cpp` (3d-rendered-scene).

Scalar conventions: material colors, shininess and shader uniform payloads
are modelled over `ℚ`; the transform composer (glm matrices, trigonometry)
is modelled over `ℝ`.  OpenGL texture names are natural numbers; the GL
context tracks which texture names have been allocated by `glGenTextures`.
The `ShaderManager` collaborator is modelled as the append-only log of
uniform writes it receives (`List GLUniform`); `m_pShaderManager` is an
`Option` of that log, `none` standing for the NULL pointer.
-/

/-- One uniform write received by the shader collaborator
(setIntValue, setVec4Value, setVec3Value, setVec2Value, setFloatValue,
setSampler2DValue in ShaderManager). -/
inductive GLUniform where
  | int (name : String) (v : ℤ)
  | vec4 (name : String) (v : ℚ × ℚ × ℚ × ℚ)
  | vec3 (name : String) (v : ℚ × ℚ × ℚ)
  | vec2 (name : String) (v : ℚ × ℚ)
  | float (name : String) (v : ℚ)
  | sampler2D (name : String) (v : ℤ)
deriving DecidableEq

/-- OBJECT_MATERIAL (declared in SceneManager.h, fields as used in
SceneManager.cpp lines 262-264, 390-392, 491-495): diffuse color,
specular color, shininess and the lookup tag. -/
structure OBJECT_MATERIAL where
  diffuseColor : ℚ × ℚ × ℚ
  specularColor : ℚ × ℚ × ℚ
  shininess : ℚ
  tag : String
deriving DecidableEq

/-- TEXTURE_ID (declared in SceneManager.h, fields as used in
SceneManager.cpp lines 42-43, 148-149): the tag and the GL texture name. -/
structure TEXTURE_ID where
  tag : String
  ID : ℕ
deriving DecidableEq

/-- The OpenGL texture-name state: `nextName` is the next unused texture
name, `alive` the names currently allocated (created by glGenTextures and
not deleted). -/
structure GLContext where
  nextName : ℕ
  alive : List ℕ
deriving DecidableEq

/-- glGenTextures(1, &id): allocates a fresh texture name and returns it
together with the updated context. -/
def glGenTextures (gl : GLContext) : ℕ × GLContext :=
  (gl.nextName, { nextName := gl.nextName + 1, alive := gl.alive ++ [gl.nextName] })

/-- The decoded-image result handed back by stbi_load: dimensions and
channel count (`int` in C).  The pixel payload is irrelevant to the
registry logic. -/
structure ImageData where
  width : ℤ
  height : ℤ
  colorChannels : ℤ
deriving DecidableEq

namespace SceneManager

/-- The SceneManager state: `m_pShaderManager` (NULL modelled as `none`,
otherwise the shader's uniform-write log), the `m_textureIDs[16]` array
(modelled as a total function; indices ≥ 16 are never read in reachable
states), `m_loadedTextures`, and `m_objectMaterials`. -/
structure SMState where
  pShaderManager : Option (List GLUniform)
  textureIDs : ℕ → TEXTURE_ID
  loadedTextures : ℕ
  objectMaterials : List OBJECT_MATERIAL

/-- SceneManager::SceneManager (lines 34-46): stores the shader pointer and
initializes every texture slot to tag "/0" and ID -1 (the literal -1
assigned to a GLuint, i.e. 4294967295 after wraparound). -/
def init (pShaderManager : Option (List GLUniform)) : SMState :=
  { pShaderManager := pShaderManager
    textureIDs := fun _ => { tag := "/0", ID := 4294967295 }
    loadedTextures := 0
    objectMaterials := [] }

/-- The slice of `m_textureIDs` the scan loops actually visit: entries
0 .. m_loadedTextures-1 in order. -/
def textureTags (st : SMState) : List TEXTURE_ID :=
  (List.range st.loadedTextures).map st.textureIDs

/-- The while loop of FindTextureSlot (lines 228-237): first index whose
entry's tag compares equal, scanning in insertion order. -/
def findTagIndex (tag : String) : List TEXTURE_ID → Option ℕ
  | [] => none
  | e :: rest =>
      if e.tag = tag then some 0 else (findTagIndex tag rest).map (fun n => n + 1)

/-- SceneManager::FindTextureSlot (lines 222-240): linear scan over the
loaded entries, returning the first matching slot index, or -1. -/
def FindTextureSlot (st : SMState) (tag : String) : ℤ :=
  match findTagIndex tag (textureTags st) with
  | some i => (i : ℤ)
  | none => -1

/-- The while loop of FindMaterial (lines 257-270): on the first entry
whose tag matches, copy diffuseColor, specularColor and shininess into the
out-parameter (the tag field is not copied) and stop; otherwise leave the
out-parameter untouched. -/
def findMaterialLoop (tag : String) (material : OBJECT_MATERIAL) :
    List OBJECT_MATERIAL → OBJECT_MATERIAL
  | [] => material
  | e :: rest =>
      if e.tag = tag then
        { material with
            diffuseColor := e.diffuseColor
            specularColor := e.specularColor
            shininess := e.shininess }
      else findMaterialLoop tag material rest

/-- SceneManager::FindMaterial (lines 248-273): returns false when
`m_objectMaterials` is empty; otherwise runs the scan loop and returns
true — the loop's `bFound` flag is not consulted by the return statement,
so the function returns true even when no entry matched.  The pair is
(return value, out-parameter after the call). -/
def FindMaterial (materials : List OBJECT_MATERIAL) (tag : String)
    (material : OBJECT_MATERIAL) : Bool × OBJECT_MATERIAL :=
  if materials.length = 0 then (false, material)
  else (true, findMaterialLoop tag material materials)

/-- ShaderManager::setIntValue: appends an integer uniform write. -/
def setIntValue (log : List GLUniform) (name : String) (v : ℤ) : List GLUniform :=
  log ++ [GLUniform.int name v]

/-- ShaderManager::setVec4Value. -/
def setVec4Value (log : List GLUniform) (name : String) (v : ℚ × ℚ × ℚ × ℚ) :
    List GLUniform :=
  log ++ [GLUniform.vec4 name v]

/-- ShaderManager::setVec3Value. -/
def setVec3Value (log : List GLUniform) (name : String) (v : ℚ × ℚ × ℚ) :
    List GLUniform :=
  log ++ [GLUniform.vec3 name v]

/-- ShaderManager::setVec2Value. -/
def setVec2Value (log : List GLUniform) (name : String) (v : ℚ × ℚ) :
    List GLUniform :=
  log ++ [GLUniform.vec2 name v]

/-- ShaderManager::setFloatValue. -/
def setFloatValue (log : List GLUniform) (name : String) (v : ℚ) : List GLUniform :=
  log ++ [GLUniform.float name v]

/-- ShaderManager::setSampler2DValue. -/
def setSampler2DValue (log : List GLUniform) (name : String) (v : ℤ) :
    List GLUniform :=
  log ++ [GLUniform.sampler2D name v]

/-- SceneManager::CreateGLTexture (lines 93-159), with the external
stbi_load decode supplied as `image` (`none` = decode failure).  On a
successful decode a GL texture name is generated first; with 3 or 4 color
channels the texture is registered at slot `m_loadedTextures` and the count
incremented (the out-of-bounds array write that the C++ would perform at
`m_loadedTextures ≥ 16` is modelled as undefined behavior, `none`); with
any other channel count the function returns false without touching the
registry (the generated GL texture is leaked).  On decode failure it
returns false with nothing changed. -/
def CreateGLTexture (gl : GLContext) (st : SMState) (image : Option ImageData)
    (tag : String) : Option (GLContext × SMState × Bool) :=
  match image with
  | none => some (gl, st, false)
  | some img =>
      if img.colorChannels = 3 ∨ img.colorChannels = 4 then
        if st.loadedTextures < 16 then
          some ((glGenTextures gl).2,
            { st with
                textureIDs := Function.update st.textureIDs st.loadedTextures
                  { ID := (glGenTextures gl).1, tag := tag }
                loadedTextures := st.loadedTextures + 1 },
            true)
        else none
      else some ((glGenTextures gl).2, st, false)

/-- SceneManager::DestroyGLTextures (lines 182-188): for every loaded slot
it calls glGenTextures(1, &m_textureIDs[i].ID) — generating a fresh texture
name into the slot rather than deleting the stored texture. -/
def DestroyGLTextures (gl : GLContext) (st : SMState) : GLContext × SMState :=
  (List.range st.loadedTextures).foldl
    (fun p i =>
      let gen := glGenTextures p.1
      (gen.2,
        { p.2 with
            textureIDs := Function.update p.2.textureIDs i
              { p.2.textureIDs i with ID := gen.1 } }))
    (gl, st)

/-- SceneManager::SetShaderColor (lines 319-338): when the shader pointer
is non-NULL, pushes bUseTexture = false (as int 0) and the color vector. -/
def SetShaderColor (st : SMState) (red green blue alpha : ℚ) : SMState :=
  match st.pShaderManager with
  | none => st
  | some log =>
      { st with
          pShaderManager :=
            some (setVec4Value (setIntValue log "bUseTexture" 0)
              "objectColor" (red, green, blue, alpha)) }

/-- SceneManager::SetShaderTexture (lines 346-357): when the shader pointer
is non-NULL, pushes bUseTexture = true (as int 1), then resolves the tag
via FindTextureSlot and pushes the resulting slot (possibly -1) as the
sampler value. -/
def SetShaderTexture (st : SMState) (textureTag : String) : SMState :=
  match st.pShaderManager with
  | none => st
  | some log =>
      { st with
          pShaderManager :=
            some (setSampler2DValue (setIntValue log "bUseTexture" 1)
              "objectTexture" (FindTextureSlot st textureTag)) }

/-- SceneManager::SetTextureUVScale (lines 365-371). -/
def SetTextureUVScale (st : SMState) (u v : ℚ) : SMState :=
  match st.pShaderManager with
  | none => st
  | some log =>
      { st with pShaderManager := some (setVec2Value log "UVscale" (u, v)) }

/-- SceneManager::SetShaderMaterial (lines 379-395): when the material list
is non-empty, calls FindMaterial on a default-initialized local
OBJECT_MATERIAL (`junk`, standing for the indeterminate stack contents) and,
when it reports true, writes the three material uniforms through
`m_pShaderManager` WITHOUT a NULL check — dereferencing a NULL shader
pointer is modelled as `none` (crash / undefined behavior). -/
def SetShaderMaterial (junk : OBJECT_MATERIAL) (st : SMState)
    (materialTag : String) : Option SMState :=
  if st.objectMaterials.length > 0 then
    let res := FindMaterial st.objectMaterials materialTag junk
    if res.1 then
      match st.pShaderManager with
      | none => none
      | some log =>
          some { st with
              pShaderManager :=
                some (setFloatValue
                  (setVec3Value
                    (setVec3Value log "material.diffuseColor" res.2.diffuseColor)
                    "material.specularColor" res.2.specularColor)
                  "material.shininess" res.2.shininess) }
    else some st
  else some st

/-- SceneManager::DefineObjectMaterials (lines 489-522): appends the four
scene materials (ball, wood, mug, metal) in order. -/
def DefineObjectMaterials (st : SMState) : SMState :=
  { st with
      objectMaterials := st.objectMaterials ++
        [{ diffuseColor := (0.4, 0.4, 0.4), specularColor := (0.7, 0.7, 0.6),
           shininess := 52.0, tag := "ball" },
         { diffuseColor := (0.2, 0.2, 0.3), specularColor := (0.0, 0.0, 0.0),
           shininess := 0.1, tag := "wood" },
         { diffuseColor := (0.8, 0.5, 0.3), specularColor := (0.2, 0.2, 0.2),
           shininess := 10.0, tag := "mug" },
         { diffuseColor := (0.7, 0.7, 0.7), specularColor := (1.0, 1.0, 1.0),
           shininess := 100.0, tag := "metal" }] }

end SceneManager

/-!
Transform Composer (SceneManager::SetTransformations, lines 281-311),
modelled over `ℝ` with Mathlib matrices.  glm stores matrices
column-major; the model uses the ordinary mathematical (row, column)
layout, so glm's `Rotate[col][row]` appears here as entry (row, col).
-/

/-- glm::normalize for a 3-vector: divide by the Euclidean length. -/
noncomputable def glmNormalize (v : ℝ × ℝ × ℝ) : ℝ × ℝ × ℝ :=
  let len := Real.sqrt (v.1 * v.1 + v.2.1 * v.2.1 + v.2.2 * v.2.2)
  (v.1 / len, v.2.1 / len, v.2.2 / len)

/-- glm::rotate(angle, axis) (gtc/matrix_transform, applied to the identity
matrix): the axis-angle rotation matrix built from cos, sin and the
normalized axis, extended to homogeneous 4x4 form. -/
noncomputable def glmRotate (angle : ℝ) (v : ℝ × ℝ × ℝ) : Matrix (Fin 4) (Fin 4) ℝ :=
  let c := Real.cos angle
  let s := Real.sin angle
  let a := glmNormalize v
  !![c + (1-c)*a.1*a.1,         (1-c)*a.2.1*a.1 - s*a.2.2,  (1-c)*a.2.2*a.1 + s*a.2.1, 0;
     (1-c)*a.1*a.2.1 + s*a.2.2, c + (1-c)*a.2.1*a.2.1,      (1-c)*a.2.2*a.2.1 - s*a.1, 0;
     (1-c)*a.1*a.2.2 - s*a.2.1, (1-c)*a.2.1*a.2.2 + s*a.1,  c + (1-c)*a.2.2*a.2.2,     0;
     0, 0, 0, 1]

/-- glm::scale(v) applied to the identity: the diagonal scale matrix. -/
def glmScale (v : ℝ × ℝ × ℝ) : Matrix (Fin 4) (Fin 4) ℝ :=
  !![v.1, 0, 0, 0;
     0, v.2.1, 0, 0;
     0, 0, v.2.2, 0;
     0, 0, 0, 1]

/-- glm::translate(v) applied to the identity: translation in the last
column. -/
def glmTranslate (v : ℝ × ℝ × ℝ) : Matrix (Fin 4) (Fin 4) ℝ :=
  !![1, 0, 0, v.1;
     0, 1, 0, v.2.1;
     0, 0, 1, v.2.2;
     0, 0, 0, 1]

/-- glm::radians: degrees times pi over 180. -/
noncomputable def glmRadians (d : ℝ) : ℝ := d * (Real.pi / 180)

/-- The textbook rotation matrix about the cardinal X axis (spec side,
from the words of the specification). -/
noncomputable def rotationXSpec (t : ℝ) : Matrix (Fin 4) (Fin 4) ℝ :=
  !![1, 0, 0, 0;
     0, Real.cos t, -(Real.sin t), 0;
     0, Real.sin t, Real.cos t, 0;
     0, 0, 0, 1]

/-- The textbook rotation matrix about the cardinal Y axis (spec side). -/
noncomputable def rotationYSpec (t : ℝ) : Matrix (Fin 4) (Fin 4) ℝ :=
  !![Real.cos t, 0, Real.sin t, 0;
     0, 1, 0, 0;
     -(Real.sin t), 0, Real.cos t, 0;
     0, 0, 0, 1]

/-- The textbook rotation matrix about the cardinal Z axis (spec side). -/
noncomputable def rotationZSpec (t : ℝ) : Matrix (Fin 4) (Fin 4) ℝ :=
  !![Real.cos t, -(Real.sin t), 0, 0;
     Real.sin t, Real.cos t, 0, 0;
     0, 0, 1, 0;
     0, 0, 0, 1]

namespace SceneManager

/-- SceneManager::SetTransformations (lines 281-311): the model matrix the
method computes and uploads as the "model" uniform (the upload on line 309
is guarded by the NULL check on line 307).  Line 305:
modelView = translation * rotationZ * rotationY * rotationX * scale, each
rotation built by glm::rotate about one cardinal axis from an angle the
method converts from degrees with glm::radians. -/
noncomputable def SetTransformationsMatrix (scaleXYZ : ℝ × ℝ × ℝ)
    (XrotationDegrees YrotationDegrees ZrotationDegrees : ℝ)
    (positionXYZ : ℝ × ℝ × ℝ) : Matrix (Fin 4) (Fin 4) ℝ :=
  let scale := glmScale scaleXYZ
  let rotationX := glmRotate (glmRadians XrotationDegrees) (1, 0, 0)
  let rotationY := glmRotate (glmRadians YrotationDegrees) (0, 1, 0)
  let rotationZ := glmRotate (glmRadians ZrotationDegrees) (0, 0, 1)
  let translation := glmTranslate positionXYZ
  translation * rotationZ * rotationY * rotationX * scale

end SceneManager

/-- glm::rotate about the unit X axis equals the textbook X rotation. -/
theorem glmRotate_unitX (t : ℝ) : glmRotate t (1, 0, 0) = rotationXSpec t := by
  unfold glmRotate glmNormalize rotationXSpec
  norm_num

/-- glm::rotate about the unit Y axis equals the textbook Y rotation. -/
theorem glmRotate_unitY (t : ℝ) : glmRotate t (0, 1, 0) = rotationYSpec t := by
  unfold glmRotate glmNormalize rotationYSpec
  norm_num

/-- glm::rotate about the unit Z axis equals the textbook Z rotation. -/
theorem glmRotate_unitZ (t : ℝ) : glmRotate t (0, 0, 1) = rotationZSpec t := by
  unfold glmRotate glmNormalize rotationZSpec
  norm_num

/-- C3: SetTransformations computes exactly
Translation * RotationZ * RotationY * RotationX * Scale with each rotation
the textbook rotation about its own cardinal axis (angles converted from
degrees to radians); scale (2,1,1) with zero rotation and translation gives
the pure scale matrix; and the point (1,0,0) under rot = (0, 90, 0),
pos = (0,0,0) maps to (0, 0, -1) (exactly, over the reals). -/
theorem SceneManager.SetTransformations_composition :
    (∀ (s : ℝ × ℝ × ℝ) (x y z : ℝ) (t : ℝ × ℝ × ℝ),
        SceneManager.SetTransformationsMatrix s x y z t =
          glmTranslate t * rotationZSpec (glmRadians z) * rotationYSpec (glmRadians y) *
            rotationXSpec (glmRadians x) * glmScale s)
    ∧ SceneManager.SetTransformationsMatrix (2, 1, 1) 0 0 0 (0, 0, 0) = glmScale (2, 1, 1)
    ∧ (SceneManager.SetTransformationsMatrix (1, 1, 1) 0 90 0 (0, 0, 0)).mulVec
        ![1, 0, 0, 1] = ![0, 0, -1, 1] := by
  have hgen : ∀ (s : ℝ × ℝ × ℝ) (x y z : ℝ) (t : ℝ × ℝ × ℝ),
      SceneManager.SetTransformationsMatrix s x y z t =
        glmTranslate t * rotationZSpec (glmRadians z) * rotationYSpec (glmRadians y) *
          rotationXSpec (glmRadians x) * glmScale s := by
    intro s x y z t
    unfold SceneManager.SetTransformationsMatrix
    rw [glmRotate_unitX, glmRotate_unitY, glmRotate_unitZ]
  refine ⟨hgen, ?_, ?_⟩
  · rw [hgen]
    unfold glmRadians rotationXSpec rotationYSpec rotationZSpec glmTranslate glmScale
    norm_num
  · rw [hgen]
    have h90 : glmRadians 90 = Real.pi / 2 := by unfold glmRadians; ring
    have h0 : glmRadians 0 = 0 := by unfold glmRadians; ring
    rw [h90, h0]
    unfold rotationXSpec rotationYSpec rotationZSpec glmTranslate glmScale
    norm_num [Real.cos_pi_div_two, Real.sin_pi_div_two]
    funext k
    fin_cases k <;>
      simp [Matrix.mulVec, Matrix.dotProduct, Matrix.mul_apply, Fin.sum_univ_four]

/-- C1: at the concrete failing input — the four-entry material registry
built by DefineObjectMaterials and the unmatched tag "granite" —
FindMaterial returns true (its return statement ignores the loop's bFound
flag whenever the registry is non-empty), leaving the out-parameter
untouched, where the claim requires it to return false (NotFound).  On an
empty registry FindMaterial does return false, and FindTextureSlot with no
match does return the -1 sentinel. -/
theorem SceneManager.FindMaterial_noMatch_nonempty_returns_true :
    SceneManager.FindMaterial
        (SceneManager.DefineObjectMaterials (SceneManager.init none)).objectMaterials
        "granite" ⟨(0, 0, 0), (0, 0, 0), 0, ""⟩ =
      (true, ⟨(0, 0, 0), (0, 0, 0), 0, ""⟩)
    ∧ SceneManager.FindMaterial (SceneManager.init none).objectMaterials
        "granite" ⟨(0, 0, 0), (0, 0, 0), 0, ""⟩ =
      (false, ⟨(0, 0, 0), (0, 0, 0), 0, ""⟩)
    ∧ SceneManager.FindTextureSlot (SceneManager.init none) "granite" = -1 := by
  refine ⟨?_, ?_, ?_⟩ <;> rfl

/-- C2: at the concrete failing input — shader attached with an empty
write log, the four-entry material registry from DefineObjectMaterials,
and the unmatched tag "granite" — SetShaderMaterial pushes the three
material uniforms anyway (with the local OBJECT_MATERIAL's indeterminate
contents, here the zero default), because FindMaterial reported true;
the claim requires no uniform writes when no entry matches. -/
theorem SceneManager.SetShaderMaterial_noMatch_still_writes :
    (SceneManager.SetShaderMaterial ⟨(0, 0, 0), (0, 0, 0), 0, ""⟩
        (SceneManager.DefineObjectMaterials (SceneManager.init (some [])))
        "granite").map SceneManager.SMState.pShaderManager =
      some (some
        [GLUniform.vec3 "material.diffuseColor" (0, 0, 0),
         GLUniform.vec3 "material.specularColor" (0, 0, 0),
         GLUniform.float "material.shininess" 0]) := by
  rfl

/-- C7: at the concrete failing input — NULL shader pointer and the
non-empty material registry from DefineObjectMaterials — SetShaderMaterial
dereferences the NULL shader pointer (crash, modelled as none) instead of
being a no-op, while the three guarded binder operations (SetShaderColor,
SetShaderTexture, SetTextureUVScale) are no-ops on the NULL-shader state
as the claim demands. -/
theorem SceneManager.SetShaderMaterial_null_shader_crashes :
    SceneManager.SetShaderMaterial ⟨(0, 0, 0), (0, 0, 0), 0, ""⟩
        (SceneManager.DefineObjectMaterials (SceneManager.init none)) "ball" = none
    ∧ SceneManager.SetShaderColor (SceneManager.init none) 1 0 0 1 =
        SceneManager.init none
    ∧ SceneManager.SetShaderTexture (SceneManager.init none) "ball" =
        SceneManager.init none
    ∧ SceneManager.SetTextureUVScale (SceneManager.init none) 1 1 =
        SceneManager.init none := by
  refine ⟨?_, ?_, ?_, ?_⟩ <;> rfl

/-- C8: at a concrete state holding one registered texture (GL name 1,
tag "table", GL context ⟨2, [1]⟩), DestroyGLTextures does not free the
texture: name 1 is still allocated afterwards, and the loop instead
generated a brand-new texture name 2 (leaking name 1) and stored it into
the slot — the body calls glGenTextures where freeing would require
glDeleteTextures. -/
theorem SceneManager.DestroyGLTextures_frees_nothing :
    (SceneManager.DestroyGLTextures ⟨2, [1]⟩
        { pShaderManager := none
          textureIDs := Function.update (fun _ => ⟨"/0", 4294967295⟩) 0 ⟨"table", 1⟩
          loadedTextures := 1
          objectMaterials := [] }).1.alive = [1, 2]
    ∧ ((SceneManager.DestroyGLTextures ⟨2, [1]⟩
        { pShaderManager := none
          textureIDs := Function.update (fun _ => ⟨"/0", 4294967295⟩) 0 ⟨"table", 1⟩
          loadedTextures := 1
          objectMaterials := [] }).2.textureIDs 0).ID = 2 := by
  constructor <;> rfl

/-- C6: when the image decodes with a channel count other than 3 or 4,
CreateGLTexture returns false and the SceneManager state — in particular
the registry count and every entry — is exactly unchanged (only the GL
context has a leaked texture name). -/
theorem SceneManager.CreateGLTexture_badChannels_no_mutation
    (gl : GLContext) (st : SceneManager.SMState) (img : ImageData) (tag : String)
    (h3 : img.colorChannels ≠ 3) (h4 : img.colorChannels ≠ 4) :
    SceneManager.CreateGLTexture gl st (some img) tag =
      some ((glGenTextures gl).2, st, false) := by
  simp only [SceneManager.CreateGLTexture]
  rw [if_neg (not_or.mpr ⟨h3, h4⟩)]

/-- C6 witness: a 2-channel 8x8 image on the freshly constructed registry. -/
theorem SceneManager.CreateGLTexture_badChannels_no_mutation_witness :
    SceneManager.CreateGLTexture ⟨1, []⟩ (SceneManager.init none)
        (some ⟨8, 8, 2⟩) "gray" =
      some ((glGenTextures ⟨1, []⟩).2, SceneManager.init none, false) :=
  SceneManager.CreateGLTexture_badChannels_no_mutation ⟨1, []⟩
    (SceneManager.init none) ⟨8, 8, 2⟩ "gray" (by decide) (by decide)

/-- C10: a successful CreateGLTexture call only appends — the count goes
from n to n + 1 and the tag and GL name of each of the first n entries are
unchanged (so every previously assigned slot index keeps resolving to the
same texture). -/
theorem SceneManager.CreateGLTexture_appends
    (gl gl2 : GLContext) (st st2 : SceneManager.SMState) (image : Option ImageData)
    (tag : String) (hn : st.loadedTextures < 16)
    (h : SceneManager.CreateGLTexture gl st image tag = some (gl2, st2, true)) :
    st2.loadedTextures = st.loadedTextures + 1
    ∧ ∀ i < st.loadedTextures, st2.textureIDs i = st.textureIDs i := by
  cases image with
  | none =>
      simp only [SceneManager.CreateGLTexture] at h
      injection h with h
      injection h with hgl h
      injection h with hst hb
      exact absurd hb (by decide)
  | some img =>
      simp only [SceneManager.CreateGLTexture] at h
      by_cases hc : img.colorChannels = 3 ∨ img.colorChannels = 4
      · rw [if_pos hc, if_pos hn] at h
        injection h with h
        injection h with hgl h
        injection h with hst hb
        rw [← hst]
        refine ⟨rfl, ?_⟩
        intro i hi
        exact Function.update_noteq (Nat.ne_of_lt hi) _ _
      · rw [if_neg hc] at h
        injection h with h
        injection h with hgl h
        injection h with hst hb
        exact absurd hb (by decide)

/-- C10 witness: loading a 3-channel image into the fresh registry. -/
theorem SceneManager.CreateGLTexture_appends_witness :
    ({ pShaderManager := none
       textureIDs := Function.update (SceneManager.init none).textureIDs 0 ⟨"table", 1⟩
       loadedTextures := 1
       objectMaterials := [] } : SceneManager.SMState).loadedTextures =
      (SceneManager.init none).loadedTextures + 1
    ∧ ∀ i < (SceneManager.init none).loadedTextures,
        ({ pShaderManager := none
           textureIDs := Function.update (SceneManager.init none).textureIDs 0 ⟨"table", 1⟩
           loadedTextures := 1
           objectMaterials := [] } : SceneManager.SMState).textureIDs i =
          (SceneManager.init none).textureIDs i :=
  SceneManager.CreateGLTexture_appends ⟨1, []⟩ ⟨2, [1]⟩ (SceneManager.init none) _
    (some ⟨4, 4, 3⟩) "table" (by decide) rfl

/-- A failed scan means no visited entry carries the tag. -/
theorem SceneManager.findTagIndex_eq_none (tag : String) (l : List TEXTURE_ID)
    (h : SceneManager.findTagIndex tag l = none) : ∀ e ∈ l, e.tag ≠ tag := by
  induction l with
  | nil => intro e he; exact absurd he (List.not_mem_nil e)
  | cons a l ih =>
      intro e he
      by_cases ha : a.tag = tag
      · simp [SceneManager.findTagIndex, ha] at h
      · simp only [SceneManager.findTagIndex, if_neg ha, Option.map_eq_none'] at h
        rcases List.mem_cons.mp he with he | he
        · rw [he]; exact ha
        · exact ih h e he

/-- Scanning past a prefix with no matching tag finds the appended entry at
the index equal to the prefix length. -/
theorem SceneManager.findTagIndex_append (tag : String) (l : List TEXTURE_ID)
    (x : TEXTURE_ID) (hl : ∀ e ∈ l, e.tag ≠ tag) (hx : x.tag = tag) :
    SceneManager.findTagIndex tag (l ++ [x]) = some l.length := by
  induction l with
  | nil => simp [SceneManager.findTagIndex, hx]
  | cons a l ih =>
      have ha : a.tag ≠ tag := hl a (List.mem_cons_self a l)
      have hl' : ∀ e ∈ l, e.tag ≠ tag := fun e he => hl e (List.mem_cons_of_mem a he)
      simp [SceneManager.findTagIndex, ha, ih hl']

/-- Registering one more entry extends the visited slice by that entry. -/
theorem SceneManager.textureTags_register (st : SceneManager.SMState)
    (e : TEXTURE_ID) :
    SceneManager.textureTags
        { st with
            textureIDs := Function.update st.textureIDs st.loadedTextures e
            loadedTextures := st.loadedTextures + 1 } =
      SceneManager.textureTags st ++ [e] := by
  unfold SceneManager.textureTags
  rw [List.range_succ, List.map_append]
  congr 1
  · refine List.map_congr_left ?_
    intro i hi
    rw [List.mem_range] at hi
    exact Function.update_noteq (Nat.ne_of_lt hi) _ _
  · simp

/-- C5: after a successful CreateGLTexture of a 3- or 4-channel image under
a tag not yet present in the registry, FindTextureSlot on that tag returns
the 0-based insertion-order position of the load, i.e. the registry count
before the call. -/
theorem SceneManager.CreateGLTexture_then_FindTextureSlot
    (gl gl2 : GLContext) (st st2 : SceneManager.SMState) (image : Option ImageData)
    (tag : String)
    (hfresh : SceneManager.FindTextureSlot st tag = -1)
    (h : SceneManager.CreateGLTexture gl st image tag = some (gl2, st2, true)) :
    SceneManager.FindTextureSlot st2 tag = (st.loadedTextures : ℤ) := by
  have hnone : SceneManager.findTagIndex tag (SceneManager.textureTags st) = none := by
    unfold SceneManager.FindTextureSlot at hfresh
    cases hidx : SceneManager.findTagIndex tag (SceneManager.textureTags st) with
    | none => rfl
    | some i =>
        rw [hidx] at hfresh
        change (i : ℤ) = -1 at hfresh
        omega
  cases image with
  | none =>
      simp only [SceneManager.CreateGLTexture] at h
      injection h with h
      injection h with hgl h
      injection h with hst hb
      exact absurd hb (by decide)
  | some img =>
      simp only [SceneManager.CreateGLTexture] at h
      by_cases hc : img.colorChannels = 3 ∨ img.colorChannels = 4
      · by_cases hn : st.loadedTextures < 16
        · rw [if_pos hc, if_pos hn] at h
          injection h with h
          injection h with hgl h
          injection h with hst hb
          rw [← hst]
          unfold SceneManager.FindTextureSlot
          rw [SceneManager.textureTags_register st { ID := (glGenTextures gl).1, tag := tag },
            SceneManager.findTagIndex_append tag _ _
              (SceneManager.findTagIndex_eq_none tag _ hnone) rfl]
          simp [SceneManager.textureTags]
        · rw [if_pos hc, if_neg hn] at h
          exact absurd h (by simp)
      · rw [if_neg hc] at h
        injection h with h
        injection h with hgl h
        injection h with hst hb
        exact absurd hb (by decide)

/-- C5 witness: a 4-channel image loaded as "table" into the fresh
registry resolves to slot 0. -/
theorem SceneManager.CreateGLTexture_then_FindTextureSlot_witness :
    SceneManager.FindTextureSlot
        ({ pShaderManager := none
           textureIDs := Function.update (SceneManager.init none).textureIDs 0 ⟨"table", 1⟩
           loadedTextures := 1
           objectMaterials := [] } : SceneManager.SMState) "table" =
      ((SceneManager.init none).loadedTextures : ℤ) :=
  SceneManager.CreateGLTexture_then_FindTextureSlot ⟨1, []⟩ ⟨2, [1]⟩
    (SceneManager.init none) _ (some ⟨4, 4, 4⟩) "table" rfl rfl

/-- The FindMaterial scan skips any prefix with no matching tag. -/
theorem SceneManager.findMaterialLoop_skip (tag : String)
    (material : OBJECT_MATERIAL) (pre l : List OBJECT_MATERIAL)
    (hpre : ∀ e ∈ pre, e.tag ≠ tag) :
    SceneManager.findMaterialLoop tag material (pre ++ l) =
      SceneManager.findMaterialLoop tag material l := by
  induction pre with
  | nil => rfl
  | cons a pre ih =>
      have ha : a.tag ≠ tag := hpre a (List.mem_cons_self a pre)
      have hpre' : ∀ e ∈ pre, e.tag ≠ tag := fun e he => hpre e (List.mem_cons_of_mem a he)
      simp [SceneManager.findMaterialLoop, ha, ih hpre']

/-- C9: on a registry holding two entries with the same tag, FindMaterial
hands back the diffuse color, specular color and shininess of the
first-defined entry (m1), shadowing the later duplicate (m2) — whatever
precedes the first match (`pre`) does not carry the tag, and whatever sits
between or after the duplicates (`mid`, `post`) is arbitrary. -/
theorem SceneManager.FindMaterial_first_match
    (pre mid post : List OBJECT_MATERIAL) (m1 m2 junk : OBJECT_MATERIAL)
    (tag : String) (hpre : ∀ e ∈ pre, e.tag ≠ tag)
    (h1 : m1.tag = tag) (h2 : m2.tag = tag) :
    SceneManager.FindMaterial (pre ++ m1 :: (mid ++ m2 :: post)) tag junk =
      (true,
        { junk with
            diffuseColor := m1.diffuseColor
            specularColor := m1.specularColor
            shininess := m1.shininess }) := by
  unfold SceneManager.FindMaterial
  rw [if_neg (by simp)]
  rw [SceneManager.findMaterialLoop_skip tag junk pre _ hpre]
  simp [SceneManager.findMaterialLoop, h1]

/-- C9 witness: two "dup" materials; lookup returns the first one's
values. -/
theorem SceneManager.FindMaterial_first_match_witness :
    SceneManager.FindMaterial
        [⟨(1, 0, 0), (0, 1, 0), 5, "dup"⟩, ⟨(0, 0, 1), (1, 1, 1), 9, "dup"⟩]
        "dup" ⟨(0, 0, 0), (0, 0, 0), 0, ""⟩ =
      (true, ⟨(1, 0, 0), (0, 1, 0), 5, ""⟩) :=
  SceneManager.FindMaterial_first_match [] [] []
    ⟨(1, 0, 0), (0, 1, 0), 5, "dup"⟩ ⟨(0, 0, 1), (1, 1, 1), 9, "dup"⟩
    ⟨(0, 0, 0), (0, 0, 0), 0, ""⟩ "dup"
    (fun e he => absurd he (List.not_mem_nil e)) rfl rfl

/-- One appearance-mode call of the Shader State Binder: flat color
(SetShaderColor) or texture (SetShaderTexture). -/
inductive BinderCall where
  | color (red green blue alpha : ℚ)
  | texture (tag : String)

/-- Run one binder call against the SceneManager state. -/
def SceneManager.applyBinderCall (st : SceneManager.SMState) :
    BinderCall → SceneManager.SMState
  | BinderCall.color r g b a => SceneManager.SetShaderColor st r g b a
  | BinderCall.texture tag => SceneManager.SetShaderTexture st tag

/-- Run a sequence of binder calls in program order. -/
def SceneManager.applyBinderCalls (st : SceneManager.SMState)
    (calls : List BinderCall) : SceneManager.SMState :=
  calls.foldl SceneManager.applyBinderCall st

/-- The bUseTexture value a call pushes: 0 for flat color, 1 for texture. -/
def binderMode : BinderCall → ℤ
  | BinderCall.color _ _ _ _ => 0
  | BinderCall.texture _ => 1

/-- The value an integer uniform holds after a write log: the last write
to that name wins. -/
def lastUniformInt (log : List GLUniform) (name : String) : Option ℤ :=
  log.reverse.findSome? fun w =>
    match w with
    | GLUniform.int n v => if n = name then some v else none
    | _ => none

/-- Any single binder call keeps the shader attached and leaves
bUseTexture holding exactly its own mode. -/
theorem SceneManager.applyBinderCall_flag (st : SceneManager.SMState)
    (log : List GLUniform) (c : BinderCall)
    (hs : st.pShaderManager = some log) :
    ∃ log2, (SceneManager.applyBinderCall st c).pShaderManager = some log2
      ∧ lastUniformInt log2 "bUseTexture" = some (binderMode c) := by
  cases c with
  | color r g b a =>
      refine ⟨SceneManager.setVec4Value
        (SceneManager.setIntValue log "bUseTexture" 0) "objectColor" (r, g, b, a), ?_, ?_⟩
      · simp [SceneManager.applyBinderCall, SceneManager.SetShaderColor, hs]
      · simp [lastUniformInt, SceneManager.setIntValue, SceneManager.setVec4Value,
          binderMode]
  | texture tag =>
      refine ⟨SceneManager.setSampler2DValue
        (SceneManager.setIntValue log "bUseTexture" 1) "objectTexture"
        (SceneManager.FindTextureSlot st tag), ?_, ?_⟩
      · simp [SceneManager.applyBinderCall, SceneManager.SetShaderTexture, hs]
      · simp [lastUniformInt, SceneManager.setIntValue, SceneManager.setSampler2DValue,
          binderMode]

/-- C4: after any non-empty sequence of SetShaderColor / SetShaderTexture
calls on a state with an attached shader, the shader's bUseTexture flag
(last write wins) equals the mode of the last call — 1 when the last call
was SetShaderTexture, 0 when it was SetShaderColor; texture mode and flat
mode are the two values of this single flag, so they are never both on. -/
theorem SceneManager.binder_last_write_wins (st : SceneManager.SMState)
    (log : List GLUniform) (calls : List BinderCall) (c : BinderCall)
    (hs : st.pShaderManager = some log)
    (hl : calls.getLast? = some c) :
    ∃ log2, (SceneManager.applyBinderCalls st calls).pShaderManager = some log2
      ∧ lastUniformInt log2 "bUseTexture" = some (binderMode c) := by
  induction calls generalizing st log with
  | nil => exact absurd hl (by simp)
  | cons c0 rest ih =>
      cases rest with
      | nil =>
          have hc : c0 = c := by
            have := hl
            simp [List.getLast?] at this
            exact this
          subst hc
          exact SceneManager.applyBinderCall_flag st log c0 hs
      | cons c1 rest' =>
          rw [List.getLast?_cons_cons] at hl
          obtain ⟨log', hlog', -⟩ := SceneManager.applyBinderCall_flag st log c0 hs
          exact ih (SceneManager.applyBinderCall st c0) log' hlog' hl

/-- C4 witness: color then texture on a freshly attached shader leaves the
flag at 1 (texture mode). -/
theorem SceneManager.binder_last_write_wins_witness :
    ∃ log2,
      (SceneManager.applyBinderCalls (SceneManager.init (some []))
          [BinderCall.color 1 0 0 1, BinderCall.texture "ball"]).pShaderManager =
        some log2
      ∧ lastUniformInt log2 "bUseTexture" = some (binderMode (BinderCall.texture "ball")) :=
  SceneManager.binder_last_write_wins (SceneManager.init (some [])) []
    [BinderCall.color 1 0 0 1, BinderCall.texture "ball"]
    (BinderCall.texture "ball") rfl (by simp)
